import Mathlib

/-
Verification of the DataConverter package (wolfsoftware/data_converter).

The development shallowly embeds the two components of the package:

* the tree codec: `dict_to_xml_recursive` (mapping to XML element tree) and
  `xml_to_dict_recursive` (XML element tree to mapping), translated from
  src/wolfsoftware/data_converter/dataconverter.py;
* the format facade: `DataConverter.init`, `to_json`, `to_xml`, `to_yaml`,
  with the external JSON/YAML/XML text parser and serializer collaborators
  (stdlib json, PyYAML, defusedxml) abstracted as a `Codecs` record, as the
  specification scopes them ("treated as an external collaborator with a
  narrow interface", "assumed available as black boxes").

Python dictionaries are insertion ordered with unique keys; they are embedded
as association lists (`PyValPairs`) with the exact CPython update semantics:
assigning to an existing key overwrites the value in place, assigning to a
fresh key appends at the end.
-/

mutual
/-- Python values flowing through the converter: strings, integers,
insertion-ordered dictionaries and lists.  `PyValPairs` is the entry list of a
dictionary, `PyValList` a Python list.  (A mutual inductive is used instead of
nesting through `List` so that every function below is structurally recursive
and reduces definitionally on concrete inputs.) -/
inductive PyVal where
  | str (s : String) : PyVal
  | int (n : Int) : PyVal
  | dict (entries : PyValPairs) : PyVal
  | list (items : PyValList) : PyVal

inductive PyValPairs where
  | nil : PyValPairs
  | cons (key : String) (value : PyVal) (rest : PyValPairs) : PyValPairs

inductive PyValList where
  | nil : PyValList
  | cons (head : PyVal) (tail : PyValList) : PyValList
end

/-- Discriminator for `isinstance(value, list)` checks of the source. -/
def PyVal.isList : PyVal → Bool
  | .list _ => true
  | _ => false

/-- Appending of dictionary entry lists. -/
def PyValPairs.append : PyValPairs → PyValPairs → PyValPairs
  | .nil, d => d
  | .cons k v rest, d => .cons k v (rest.append d)

/-- Appending of Python lists. -/
def PyValList.append : PyValList → PyValList → PyValList
  | .nil, l => l
  | .cons v rest, l => .cons v (rest.append l)

/-- Length of a Python list. -/
def PyValList.length : PyValList → Nat
  | .nil => 0
  | .cons _ rest => 1 + rest.length

/-- Dictionary key lookup (`d[k]` / `k in d`): the value of the first entry
carrying the key, if any; entry lists built by the code below keep keys
unique, so this is CPython dictionary lookup. -/
def PyValPairs.lookup : PyValPairs → String → Option PyVal
  | .nil, _ => none
  | .cons k' v rest, k => if k' = k then some v else rest.lookup k

/-- Membership test for a key (`key in d`). -/
def PyValPairs.containsKey (d : PyValPairs) (k : String) : Bool :=
  (d.lookup k).isSome

/-- Overwriting the value of the first entry carrying key `k`, keeping its
position — CPython assignment to an existing dictionary key. -/
def PyValPairs.replaceKey : PyValPairs → String → PyVal → PyValPairs
  | .nil, _, _ => .nil
  | .cons k' v' rest, k, v =>
      if k' = k then .cons k v rest else .cons k' v' (rest.replaceKey k v)

/-- Keys of a dictionary, in order. -/
def keysOf : PyValPairs → List String
  | .nil => []
  | .cons k _ rest => k :: keysOf rest

/-- CPython dictionary assignment `d[k] = v`: overwrite in place when the key
exists, append a new entry otherwise. -/
def dictSet (d : PyValPairs) (k : String) (v : PyVal) : PyValPairs :=
  if d.containsKey k then d.replaceKey k v else d.append (.cons k v .nil)

/-- Body of the child-merging loop of `_xml_to_dict_recursive`
(dataconverter.py lines 200-206): on a repeated key the stored value is
promoted to a list (wrapping a non-list first value) and the new value is
appended; a fresh key is stored directly. -/
def dictInsertChild (d : PyValPairs) (k : String) (v : PyVal) : PyValPairs :=
  match d.lookup k with
  | none => d.append (.cons k v .nil)
  | some (.list l) => d.replaceKey k (.list (l.append (.cons v .nil)))
  | some old => d.replaceKey k (.list (.cons old (.cons v .nil)))

/-- Folding of a stream of (key, value) pairs into `child_dict` by
`dictInsertChild`, starting from accumulator `acc`. -/
def foldInto (acc : PyValPairs) : PyValPairs → PyValPairs
  | .nil => acc
  | .cons k v rest => foldInto (dictInsertChild acc k v) rest

/-- Complete child-merging loop of `_xml_to_dict_recursive` (lines 198-206):
`child_dict` starts empty and every (key, value) pair of every child's
decoded mapping is inserted in document order. -/
def foldPairs (pairs : PyValPairs) : PyValPairs :=
  foldInto .nil pairs

/-- CPython `d.update(d2)` (line 207 `data_dict.update(child_dict)`):
assign every entry of `d2` into `d` in order. -/
def dictUpdate (d : PyValPairs) : PyValPairs → PyValPairs
  | .nil => d
  | .cons k v rest => dictUpdate (dictSet d k v) rest

mutual
/-- XML element tree node, as produced by `xml.etree.ElementTree`: a tag, an
ordered attribute mapping, optional direct text, and the ordered child list
(again a mutual inductive for structural recursion). -/
inductive Element where
  | mk (tag : String) (attrib : List (String × String)) (text : Option String)
      (children : ElementList) : Element

inductive ElementList where
  | nil : ElementList
  | cons (head : Element) (tail : ElementList) : ElementList
end

/-- Tag accessor of an element. -/
def Element.tag : Element → String
  | .mk t _ _ _ => t

/-- Attribute accessor of an element. -/
def Element.attrib : Element → List (String × String)
  | .mk _ a _ _ => a

/-- Text accessor of an element. -/
def Element.text : Element → Option String
  | .mk _ _ x _ => x

/-- Children accessor of an element. -/
def Element.children : Element → ElementList
  | .mk _ _ _ c => c

/-- Emptiness test of a child list (Python truthiness of `children`). -/
def ElementList.isEmpty : ElementList → Bool
  | .nil => true
  | .cons _ _ => false

/-- Attribute processing of `_xml_to_dict_recursive` (lines 193-194): one
entry per attribute, key prefixed with `@`, value the attribute string. -/
def attribDict : List (String × String) → PyValPairs
  | [] => .nil
  | (k, v) :: rest => .cons ("@" ++ k) (.str v) (attribDict rest)

/-- Whitespace test of Python `str.strip` (space, tab, newline, carriage
return, vertical tab, form feed). -/
def isPySpace (c : Char) : Bool :=
  c = ' ' || c = '\t' || c = '\n' || c = '\r' || c = '\x0b' || c = '\x0c'

/-- Dropping of leading whitespace from a character list. -/
def dropLeadingSpace : List Char → List Char
  | [] => []
  | c :: cs => if isPySpace c then dropLeadingSpace cs else c :: cs

/-- Python `str.strip()`: the string with leading and trailing whitespace
removed (structural implementation so that it reduces definitionally). -/
def pyStrip (s : String) : String :=
  String.mk ((dropLeadingSpace (dropLeadingSpace s.data).reverse).reverse)

/-- Text normalisation of line 209,
`element.text.strip() if element.text and element.text.strip() else None`:
stripped text when it is non-empty after stripping, absent otherwise. -/
def stripText : Option String → Option String
  | none => none
  | some s => if pyStrip s = "" then none else some (pyStrip s)

/- Recursive XML-to-mapping decoding, `_xml_to_dict_recursive`
(dataconverter.py lines 180-214).  `childPairs` flattens the decoded
single-child mappings in document order; feeding the flattened stream through
`foldPairs` is the nested loop of lines 199-206 verbatim, since that loop
visits exactly the same (key, value) pairs in the same order. -/
mutual
/-- Recursive decoding of one element, lines 191-214 of the source. -/
def xml_to_dict_recursive : Element → PyValPairs
  | .mk tag attrib text children =>
      let dataDict := attribDict attrib
      let dataDict :=
        if children.isEmpty then dataDict
        else dictUpdate dataDict (foldPairs (childPairs children))
      match stripText text with
      | some t =>
          if children.isEmpty then .cons tag (.str t) .nil
          else
            let dataDict := dictSet dataDict "#text" (.str t)
            if !attrib.isEmpty || !children.isEmpty then
              .cons tag (.dict dataDict) .nil
            else dataDict
      | none =>
          if !attrib.isEmpty || !children.isEmpty then
            .cons tag (.dict dataDict) .nil
          else dataDict

def childPairs : ElementList → PyValPairs
  | .nil => .nil
  | .cons e rest => (xml_to_dict_recursive e).append (childPairs rest)
end

mutual
/-- Tree-building part of `_dict_to_xml_recursive` (dataconverter.py lines
143-163), as the element generated for key `tag` holding value `data`: a
mapping contributes one child element per entry named by the key, a list one
child per item named literally `item`, and any other value sets the element's
text to its Python `str()` rendering. -/
def dict_to_xml_recursive (tag : String) : PyVal → Element
  | .dict kvs => .mk tag [] none (pairsToElements kvs)
  | .list items => .mk tag [] none (listToElements items)
  | .str s => .mk tag [] (some s) .nil
  | .int n => .mk tag [] (some (toString n)) .nil

/-- Children generated for a mapping, one per entry in insertion order. -/
def pairsToElements : PyValPairs → ElementList
  | .nil => .nil
  | .cons k v rest => .cons (dict_to_xml_recursive k v) (pairsToElements rest)

/-- Children generated for a list, one `item` element per item in order. -/
def listToElements : PyValList → ElementList
  | .nil => .nil
  | .cons v rest => .cons (dict_to_xml_recursive "item" v) (listToElements rest)
end

/-- Element tree built by `dict_to_xml` (lines 127-141) before serialization:
a root element named `rootTag` whose content is the recursive encoding of
`data`. -/
def dict_to_xml_tree (data : PyVal) (rootTag : String) : Element :=
  dict_to_xml_recursive rootTag data

mutual
/-- Tree transform performed by a successful serialize-and-reparse round
through the external XML text leg (the success case of `serializeReparse`
below): the identity on the element tree except that pretty-printing
introduces indentation whitespace as the direct text of every element that
has child elements; childless elements and text-only elements are printed
inline. -/
def prettyReparse : Element → Element
  | .mk tag attrib text children =>
      match children with
      | .nil => .mk tag attrib text .nil
      | .cons c rest =>
          .mk tag attrib
            (match text with
             | none => some "\n  "
             | some t => some t)
            (prettyReparseList (.cons c rest))

/-- Successful serialize-and-reparse transform mapped over a child list. -/
def prettyReparseList : ElementList → ElementList
  | .nil => .nil
  | .cons e rest => .cons (prettyReparse e) (prettyReparseList rest)
end

/-- Modelled from the spec: start character of a valid XML element name,
restricted to the portable ASCII core (letter or underscore; §4.1 treats
"empty or invalid XML element names" as malformed input keys). -/
def xmlNameStartChar (c : Char) : Bool :=
  c.isAlpha || c = '_'

/-- Modelled from the spec: subsequent character of a valid XML element name,
restricted to the portable ASCII core (letter, digit, hyphen, dot,
underscore). -/
def xmlNameChar (c : Char) : Bool :=
  c.isAlpha || c.isDigit || c = '-' || c = '.' || c = '_'

/-- Modelled from the spec: validity of an XML element or attribute name
(non-empty, a name start character followed by name characters); the empty
string and names containing spaces or markup characters are invalid. -/
def validXmlName (s : String) : Bool :=
  match s.data with
  | [] => false
  | c :: cs => xmlNameStartChar c && cs.all xmlNameChar

mutual
/-- Well-formedness of every element and attribute name in a tree: exactly
what the external serialize-and-reparse leg requires to succeed. -/
def elementNamesValid : Element → Bool
  | .mk tag attrib _ children =>
      validXmlName tag && attrib.all (fun p => validXmlName p.1) &&
        elementListNamesValid children

/-- Name well-formedness over a child list. -/
def elementListNamesValid : ElementList → Bool
  | .nil => true
  | .cons e rest => elementNamesValid e && elementListNamesValid rest
end

/-- Errors raised by the external text codecs: `json.JSONDecodeError`,
`yaml.YAMLError`, and the XML `ParseError` of `defusedxml`/ElementTree (and
the expat error of `minidom.parseString`).  None of these classes derives
from `DataConverterError`. -/
inductive LibErr where
  | jsonDecode (msg : String) : LibErr
  | yamlError (msg : String) : LibErr
  | xmlParse (msg : String) : LibErr

/-- Modelled from the spec: the composition of the external XML serializer
(`ET.tostring` plus `defusedxml.minidom.parseString(...).toprettyxml()`, §4.1
"Output is serialized with human-readable indentation (pretty-printed)") with
the external XML text parser used on the way back (`fromstring`, §4.1 step 1;
both are consumed collaborators per §6, out of scope per §1).  A tree
containing a malformed element or attribute name cannot be serialized and
re-parsed — `ET.tostring` emits ill-formed markup and the expat-based
re-parse raises — matching §4.1: "malformed input keys (e.g., empty or
invalid XML element names) — those must raise a decode/encode error".  On a
tree whose names are all valid the composition is `prettyReparse`. -/
def serializeReparse (e : Element) : Except LibErr Element :=
  if elementNamesValid e then .ok (prettyReparse e)
  else .error (.xmlParse "not well-formed (invalid token)")

mutual
/-- Values all of whose mapping keys are valid XML element names — the
qualifier the round-trip law places on its mappings. -/
def keysXmlValid : PyVal → Bool
  | .str _ => true
  | .int _ => true
  | .dict kvs => keysXmlValidPairs kvs
  | .list l => keysXmlValidList l

/-- Key validity over dictionary entries. -/
def keysXmlValidPairs : PyValPairs → Bool
  | .nil => true
  | .cons k v rest => validXmlName k && keysXmlValid v && keysXmlValidPairs rest

/-- Key validity over list items. -/
def keysXmlValidList : PyValList → Bool
  | .nil => true
  | .cons v rest => keysXmlValid v && keysXmlValidList rest
end

mutual
/-- Stringification of numeric leaves: the documented lossy rendering a value
suffers on the XML leg (every scalar becomes its `str()` text). -/
def stringifyVal : PyVal → PyVal
  | .str s => .str s
  | .int n => .str (toString n)
  | .dict kvs => .dict (stringifyPairs kvs)
  | .list l => .list (stringifyList l)

/-- Stringification of numeric leaves over dictionary entries. -/
def stringifyPairs : PyValPairs → PyValPairs
  | .nil => .nil
  | .cons k v rest => .cons k (stringifyVal v) (stringifyPairs rest)

/-- Stringification of numeric leaves over list items. -/
def stringifyList : PyValList → PyValList
  | .nil => .nil
  | .cons v rest => .cons (stringifyVal v) (stringifyList rest)
end

/-- Key-distinctness of a key list (Python dictionaries always satisfy it). -/
def distinctKeys : List String → Bool
  | [] => true
  | k :: ks => !(ks.contains k) && distinctKeys ks

/-- Emptiness test of a dictionary entry list. -/
def PyValPairs.isEmpty : PyValPairs → Bool
  | .nil => true
  | .cons _ _ _ => false

mutual
/-- Mappings within the round-trippable fragment: every scalar's `str()`
rendering survives text stripping (it is non-empty and has no leading or
trailing whitespace), every nested mapping is non-empty with pairwise
distinct keys, and no value is a list (a list-valued key is re-decoded under
an inner `item` key, an additional lossy case). -/
def niceVal : PyVal → Bool
  | .str s => pyStrip s == s && s != ""
  | .int n => pyStrip (toString n) == toString n && toString n != ""
  | .dict kvs => !kvs.isEmpty && distinctKeys (keysOf kvs) && nicePairs kvs
  | .list _ => false

/-- Round-trippable fragment over dictionary entries. -/
def nicePairs : PyValPairs → Bool
  | .nil => true
  | .cons _ v rest => niceVal v && nicePairs rest
end

/-- Payload bound at construction, `Union[str, Dict[str, Any]]` in the source
signature: either text or a native mapping. -/
inductive Payload where
  | str (s : String) : Payload
  | dict (d : PyValPairs) : Payload

/-- PyVal view of a payload (`json.dumps(self.data)` accepts both shapes). -/
def payloadVal : Payload → PyVal
  | .str s => .str s
  | .dict d => .dict d

/-- Exceptions observable from a facade call: either the package's own
`DataConverterError` (exceptions.py lines 9-24) with its message, or an
exception of one of the external libraries propagating uncaught (the facade
wraps no call in try/except). -/
inductive DCErr where
  | dataConverterError (msg : String) : DCErr
  | libError (e : LibErr) : DCErr

/-- External parser/serializer collaborators consumed by the facade (spec §6):
the JSON and YAML text codecs and the hardened XML text parser and
pretty-printing serializer.  The facade theorems below hold for every
instantiation. -/
structure Codecs where
  jsonLoads : String → Except LibErr PyVal
  jsonDumps : PyVal → String
  yamlLoads : String → Except LibErr PyVal
  yamlDump : PyVal → String
  xmlFromstring : String → Except LibErr Element
  xmlSerialize : Element → String

/-- Converter state: the bound payload and its declared format tag
(dataconverter.py lines 53-54). -/
structure DCState where
  data : Payload
  data_type : String

/-- Constructor `DataConverter.__init__` (lines 39-54): reject a tag outside
the closed set, otherwise bind the payload and the tag. -/
def DataConverter.init (data : Payload) (data_type : String) : Except DCErr DCState :=
  if ["json", "xml", "dict", "yaml"].contains data_type then
    .ok ⟨data, data_type⟩
  else
    .error (.dataConverterError "Unsupported data type")

/-- Static `dict_to_xml` (lines 127-141): build the tree and hand it to the
external pretty-printing serializer. -/
def dict_to_xml (c : Codecs) (data : PyVal) (rootTag : String) : String :=
  c.xmlSerialize (dict_to_xml_tree data rootTag)

/-- Static `xml_to_json` (lines 165-178): parse the text with the hardened
external parser, decode the tree, serialize the mapping as JSON. -/
def xml_to_json (c : Codecs) (xmlData : String) : Except DCErr String :=
  match c.xmlFromstring xmlData with
  | .error e => .error (.libError e)
  | .ok root => .ok (c.jsonDumps (.dict (xml_to_dict_recursive root)))

/-- Static `json_to_xml` (lines 216-228), an alias of `dict_to_xml`. -/
def json_to_xml (c : Codecs) (jsonData : PyVal) (rootTag : String) : String :=
  dict_to_xml c jsonData rootTag

/-- Static `yaml_to_dict` (lines 230-241), delegating to `yaml.safe_load`. -/
def yaml_to_dict (c : Codecs) (yamlData : String) : Except LibErr PyVal :=
  c.yamlLoads yamlData

/-- Method `to_json` (lines 56-76).  Every exit is paired with the converter
state as the call leaves it; the body contains no assignment to `self`, so
each exit returns the incoming state. -/
def DataConverter.to_json (c : Codecs) (st : DCState) :
    Except DCErr String × DCState :=
  ( if st.data_type = "xml" then
      match st.data with
      | .str s => xml_to_json c s
      | .dict _ => .error (.dataConverterError "Invalid data type for XML conversion")
    else if st.data_type = "yaml" then
      match st.data with
      | .str s =>
          match yaml_to_dict c s with
          | .error e => .error (.libError e)
          | .ok v => .ok (c.jsonDumps v)
      | .dict _ => .error (.dataConverterError "Invalid data type for YAML conversion")
    else if st.data_type = "dict" then
      .ok (c.jsonDumps (payloadVal st.data))
    else
      .error (.dataConverterError "Unsupported data type for JSON conversion"),
    st )

/-- Method `to_xml` (lines 78-100), state threaded as in `to_json`. -/
def DataConverter.to_xml (c : Codecs) (st : DCState) :
    Except DCErr String × DCState :=
  ( if st.data_type = "json" then
      match st.data with
      | .str s =>
          match c.jsonLoads s with
          | .error e => .error (.libError e)
          | .ok v => .ok (json_to_xml c v "root")
      | .dict _ => .error (.dataConverterError "Invalid data type for JSON conversion")
    else if st.data_type = "dict" then
      match st.data with
      | .dict d => .ok (dict_to_xml c (.dict d) "root")
      | .str _ => .error (.dataConverterError "Invalid data type for dict conversion")
    else if st.data_type = "yaml" then
      match st.data with
      | .str s =>
          match yaml_to_dict c s with
          | .error e => .error (.libError e)
          | .ok v => .ok (dict_to_xml c v "root")
      | .dict _ => .error (.dataConverterError "Invalid data type for YAML conversion")
    else
      .error (.dataConverterError "Unsupported data type for XML conversion"),
    st )

/-- Method `to_yaml` (lines 102-125), state threaded as in `to_json`. -/
def DataConverter.to_yaml (c : Codecs) (st : DCState) :
    Except DCErr String × DCState :=
  ( if st.data_type = "json" then
      match st.data with
      | .str s =>
          match c.jsonLoads s with
          | .error e => .error (.libError e)
          | .ok v => .ok (c.yamlDump v)
      | .dict _ => .error (.dataConverterError "Invalid data type for JSON conversion")
    else if st.data_type = "dict" then
      match st.data with
      | .dict d => .ok (c.yamlDump (.dict d))
      | .str _ => .error (.dataConverterError "Invalid data type for dict conversion")
    else if st.data_type = "xml" then
      match st.data with
      | .str s =>
          match c.xmlFromstring s with
          | .error e => .error (.libError e)
          | .ok root => .ok (c.yamlDump (.dict (xml_to_dict_recursive root)))
      | .dict _ => .error (.dataConverterError "Invalid data type for XML conversion")
    else
      .error (.dataConverterError "Unsupported data type for YAML conversion"),
    st )

/-- JSON escaping of one character with the default `json.dumps` rules for
the characters the development exercises. -/
def jsonEscapeChar (ch : Char) : String :=
  if ch = '"' then "\\\""
  else if ch = '\\' then "\\\\"
  else if ch = '\n' then "\\n"
  else if ch = '\t' then "\\t"
  else if ch = '\r' then "\\r"
  else String.singleton ch

/-- JSON string literal for `s`, double-quoted and escaped. -/
def jsonQuote (s : String) : String :=
  "\"" ++ String.join (s.data.map jsonEscapeChar) ++ "\""

mutual
/-- Modelled from the spec: the external JSON serializer collaborator
(stdlib `json.dumps` with its default separators), §1/§6 — "a JSON
parser/serializer converting between JSON text and the Structured Value
model", consumed as a black box. -/
def jsonDumps : PyVal → String
  | .str s => jsonQuote s
  | .int n => toString n
  | .dict kvs => "\x7b" ++ jsonDumpsPairs kvs ++ "\x7d"
  | .list l => "[" ++ jsonDumpsList l ++ "]"

/-- JSON rendering of dictionary members, comma separated. -/
def jsonDumpsPairs : PyValPairs → String
  | .nil => ""
  | .cons k v .nil => jsonQuote k ++ ": " ++ jsonDumps v
  | .cons k v rest => jsonQuote k ++ ": " ++ jsonDumps v ++ ", " ++ jsonDumpsPairs rest

/-- JSON rendering of array items, comma separated. -/
def jsonDumpsList : PyValList → String
  | .nil => ""
  | .cons v .nil => jsonDumps v
  | .cons v rest => jsonDumps v ++ ", " ++ jsonDumpsList rest
end

/-- Whitespace skipping of the JSON grammar. -/
def jsonSkipWs : List Char → List Char
  | [] => []
  | c :: cs => if c = ' ' || c = '\t' || c = '\n' || c = '\r' then jsonSkipWs cs else c :: cs

/-- Body of a JSON string literal after the opening quote: characters up to
the closing quote, with backslash escapes. -/
def jsonParseStringBody : List Char → Except String (String × List Char)
  | [] => .error "Unterminated string starting at"
  | '"' :: rest => .ok ("", rest)
  | '\\' :: e :: rest =>
      match jsonParseStringBody rest with
      | .error msg => .error msg
      | .ok (s, rem) =>
          let d : Char :=
            if e = 'n' then '\n' else if e = 't' then '\t'
            else if e = 'r' then '\r' else e
          .ok (String.singleton d ++ s, rem)
  | '\\' :: [] => .error "Unterminated string starting at"
  | c :: rest =>
      match jsonParseStringBody rest with
      | .error msg => .error msg
      | .ok (s, rem) => .ok (String.singleton c ++ s, rem)

/-- Digit run of a JSON integer literal. -/
def jsonParseDigits (acc : Nat) : List Char → Nat × List Char
  | [] => (acc, [])
  | c :: cs =>
      if c.isDigit then jsonParseDigits (acc * 10 + (c.toNat - 48)) cs
      else (acc, c :: cs)

mutual
/-- Modelled from the spec: the external JSON text parser collaborator
(stdlib `json.loads`), §1/§6, consumed as a black box; the model covers the
object/array/string/integer fragment the Structured Value model of this file
represents, and fails with a `JSONDecodeError`-style message exactly where
the grammar is violated. -/
def jsonParseVal : Nat → List Char → Except String (PyVal × List Char)
  | 0, _ => .error "Recursion limit exceeded"
  | fuel + 1, cs =>
      match jsonSkipWs cs with
      | [] => .error "Expecting value"
      | '"' :: rest =>
          match jsonParseStringBody rest with
          | .error msg => .error msg
          | .ok (s, rem) => .ok (.str s, rem)
      | '-' :: c :: rest =>
          if c.isDigit then
            let (n, rem) := jsonParseDigits (c.toNat - 48) rest
            .ok (.int (-(n : Int)), rem)
          else .error "Expecting value"
      | '\x7b' :: rest => jsonParseMembers fuel rest true
      | '[' :: rest => jsonParseItems fuel rest true
      | c :: rest =>
          if c.isDigit then
            let (n, rem) := jsonParseDigits (c.toNat - 48) rest
            .ok (.int (n : Int), rem)
          else .error "Expecting value"

/-- Members of a JSON object after the opening brace (or after a comma when
`first` is false). -/
def jsonParseMembers : Nat → List Char → Bool → Except String (PyVal × List Char)
  | 0, _, _ => .error "Recursion limit exceeded"
  | fuel + 1, cs, first =>
      match jsonSkipWs cs with
      | '\x7d' :: rest =>
          if first then .ok (.dict .nil, rest)
          else .error "Expecting property name enclosed in double quotes"
      | '"' :: rest =>
          match jsonParseStringBody rest with
          | .error msg => .error msg
          | .ok (k, rem) =>
              match jsonSkipWs rem with
              | ':' :: rem2 =>
                  match jsonParseVal fuel rem2 with
                  | .error msg => .error msg
                  | .ok (v, rem3) =>
                      match jsonSkipWs rem3 with
                      | ',' :: rem4 =>
                          match jsonParseMembers fuel rem4 false with
                          | .error msg => .error msg
                          | .ok (.dict d, rem5) => .ok (.dict (.cons k v d), rem5)
                          | .ok _ => .error "Expecting property name enclosed in double quotes"
                      | '\x7d' :: rem4 => .ok (.dict (.cons k v .nil), rem4)
                      | _ => .error "Expecting ',' delimiter"
              | _ => .error "Expecting ':' delimiter"
      | _ => .error "Expecting property name enclosed in double quotes"

/-- Items of a JSON array after the opening bracket (or after a comma when
`first` is false). -/
def jsonParseItems : Nat → List Char → Bool → Except String (PyVal × List Char)
  | 0, _, _ => .error "Recursion limit exceeded"
  | fuel + 1, cs, first =>
      match jsonSkipWs cs with
      | ']' :: rest =>
          if first then .ok (.list .nil, rest)
          else .error "Expecting value"
      | rest =>
          match jsonParseVal fuel rest with
          | .error msg => .error msg
          | .ok (v, rem) =>
              match jsonSkipWs rem with
              | ',' :: rem2 =>
                  match jsonParseItems fuel rem2 false with
                  | .error msg => .error msg
                  | .ok (.list l, rem3) => .ok (.list (.cons v l), rem3)
                  | .ok _ => .error "Expecting value"
              | ']' :: rem2 => .ok (.list (.cons v .nil), rem2)
              | _ => .error "Expecting ',' delimiter"
end

/-- Modelled from the spec: entry point of the external JSON parser
collaborator (`json.loads`); a malformed document yields a
`json.JSONDecodeError`, which is not a `DataConverterError`. -/
def jsonLoads (s : String) : Except LibErr PyVal :=
  match jsonParseVal (2 * s.length + 2) s.data with
  | .error msg => .error (.jsonDecode msg)
  | .ok (v, rest) =>
      match jsonSkipWs rest with
      | [] => .ok v
      | _ => .error (.jsonDecode "Extra data")

/-- Codecs instance for the closed concrete statements of this file: the JSON
collaborators are the executable models above; the YAML and XML text
collaborators, whose values no theorem below depends on (every general
theorem is proved for all `Codecs`), are inhabited by trivial functions. -/
def pyCodecs : Codecs where
  jsonLoads := jsonLoads
  jsonDumps := jsonDumps
  yamlLoads := fun _ => .error (.yamlError "YAML text codec not modelled")
  yamlDump := fun _ => ""
  xmlFromstring := fun _ => .error (.xmlParse "XML text codec not modelled")
  xmlSerialize := fun _ => ""

/-- Values stored in document order under key `k` in a pair stream, first
occurrence included. -/
def valuesFor (k : String) : PyValPairs → PyValList
  | .nil => .nil
  | .cons k' v rest => if k' = k then .cons v (valuesFor k rest) else valuesFor k rest

/-- Collapse of an occurrence list per the folding rule: no occurrence gives
nothing, a single occurrence gives the value directly, two or more give the
list of values. -/
def collapse : PyValList → Option PyVal
  | .nil => none
  | .cons v .nil => some v
  | .cons v (.cons w rest) => some (.list (.cons v (.cons w rest)))

/-- Pair streams none of whose values is a Python list. -/
def valuesNotList : PyValPairs → Bool
  | .nil => true
  | .cons _ v rest => !v.isList && valuesNotList rest

/-- Key of the first entry of a mapping (used to separate concrete unequal
mappings). -/
def firstKey : PyValPairs → String
  | .nil => ""
  | .cons k _ _ => k

/-- Key of the first entry of a successfully decoded document (used to
separate concrete unequal decode results behind the `Except` layer). -/
def okFirstKey : Except LibErr PyValPairs → String
  | .ok d => firstKey d
  | .error _ => ""

theorem pyValList_append_nil : ∀ l : PyValList, l.append .nil = l
  | .nil => rfl
  | .cons v rest => by simp [PyValList.append, pyValList_append_nil rest]

theorem pyValList_append_assoc : ∀ a b c : PyValList,
    (a.append b).append c = a.append (b.append c)
  | .nil, _, _ => rfl
  | .cons v rest, b, c => by
      simp [PyValList.append, pyValList_append_assoc rest b c]

theorem pyValList_append_eq_single : ∀ (l : PyValList) (v0 v : PyVal),
    l.append (.cons v0 .nil) = .cons v .nil → l = .nil ∧ v = v0
  | .nil, v0, v, h => by
      simp [PyValList.append] at h
      exact ⟨rfl, h.symm⟩
  | .cons w rest, v0, v, h => by
      simp [PyValList.append] at h
      rcases h with ⟨-, h2⟩
      cases rest <;> simp [PyValList.append] at h2

theorem pyValPairs_append_assoc : ∀ a b c : PyValPairs,
    (a.append b).append c = a.append (b.append c)
  | .nil, _, _ => rfl
  | .cons k v rest, b, c => by
      simp [PyValPairs.append, pyValPairs_append_assoc rest b c]

theorem pyValPairs_lookup_append : ∀ (d d2 : PyValPairs) (k : String),
    (d.append d2).lookup k
      = match d.lookup k with
        | some v => some v
        | none => d2.lookup k
  | .nil, d2, k => by simp [PyValPairs.append, PyValPairs.lookup]
  | .cons k' v rest, d2, k => by
      by_cases h : k' = k
      · simp [PyValPairs.append, PyValPairs.lookup, h]
      · simp [PyValPairs.append, PyValPairs.lookup, h,
          pyValPairs_lookup_append rest d2 k]

theorem pyValPairs_lookup_replaceKey_self : ∀ (d : PyValPairs) (k : String) (v : PyVal),
    (d.replaceKey k v).lookup k = if (d.lookup k).isSome then some v else none
  | .nil, k, v => by simp [PyValPairs.replaceKey, PyValPairs.lookup]
  | .cons k' v' rest, k, v => by
      by_cases h : k' = k
      · simp [PyValPairs.replaceKey, PyValPairs.lookup, h]
      · simp [PyValPairs.replaceKey, PyValPairs.lookup, h,
          pyValPairs_lookup_replaceKey_self rest k v]

theorem pyValPairs_lookup_replaceKey_ne : ∀ (d : PyValPairs) (k k2 : String) (v : PyVal),
    k2 ≠ k → (d.replaceKey k v).lookup k2 = d.lookup k2
  | .nil, _, _, _, _ => rfl
  | .cons k' v' rest, k, k2, v, hne => by
      by_cases h : k' = k
      · subst h
        simp [PyValPairs.replaceKey, PyValPairs.lookup, Ne.symm hne]
      · simp [PyValPairs.replaceKey, PyValPairs.lookup, h,
          pyValPairs_lookup_replaceKey_ne rest k k2 v hne]

theorem lookup_dictInsertChild_ne (d : PyValPairs) (k k2 : String) (v : PyVal)
    (hne : k2 ≠ k) : (dictInsertChild d k v).lookup k2 = d.lookup k2 := by
  unfold dictInsertChild
  cases h : d.lookup k with
  | none =>
      rw [pyValPairs_lookup_append]
      cases h2 : d.lookup k2 with
      | none => simp [PyValPairs.lookup, Ne.symm hne]
      | some w => simp
  | some w =>
      cases w <;> simp [pyValPairs_lookup_replaceKey_ne d k k2 _ hne]

theorem lookup_dictInsertChild_self (d : PyValPairs) (k : String) (v : PyVal) :
    (dictInsertChild d k v).lookup k
      = match d.lookup k with
        | none => some v
        | some (.list l) => some (.list (l.append (.cons v .nil)))
        | some old => some (.list (.cons old (.cons v .nil))) := by
  unfold dictInsertChild
  cases h : d.lookup k with
  | none => rw [pyValPairs_lookup_append]; simp [h, PyValPairs.lookup]
  | some w =>
      cases w <;> simp [pyValPairs_lookup_replaceKey_self, h]

theorem foldInto_lookup : ∀ (pairs acc : PyValPairs) (f : String → PyValList),
    (∀ k, acc.lookup k = collapse (f k)) →
    (∀ k v, f k = .cons v .nil → v.isList = false) →
    valuesNotList pairs = true →
    ∀ k, (foldInto acc pairs).lookup k = collapse ((f k).append (valuesFor k pairs))
  | .nil, acc, f, hacc, _, _, k => by
      simp [foldInto, valuesFor, pyValList_append_nil, hacc]
  | .cons k0 v0 rest, acc, f, hacc, hsingle, hvals, k => by
      simp only [valuesNotList, Bool.and_eq_true, Bool.not_eq_true'] at hvals
      obtain ⟨hv0, hrest⟩ := hvals
      let f2 : String → PyValList :=
        fun k2 => if k0 = k2 then (f k2).append (.cons v0 .nil) else f k2
      have hacc2 : ∀ k2, (dictInsertChild acc k0 v0).lookup k2 = collapse (f2 k2) := by
        intro k2
        by_cases h2 : k0 = k2
        · subst h2
          rw [lookup_dictInsertChild_self, hacc k0]
          cases hf : f k0 with
          | nil => simp [collapse, f2, hf, PyValList.append]
          | cons w tail =>
            cases tail with
            | nil =>
                have hw := hsingle k0 w hf
                cases w <;>
                  simp_all [collapse, f2, PyValList.append, PyVal.isList]
            | cons u tail2 =>
                simp [collapse, f2, hf, PyValList.append]
        · rw [lookup_dictInsertChild_ne acc k0 k2 v0 (fun hh => h2 hh.symm)]
          simp [f2, h2, hacc k2]
      have hsingle2 : ∀ k2 v, f2 k2 = .cons v .nil → v.isList = false := by
        intro k2 v hv
        by_cases h2 : k0 = k2
        · simp only [f2, if_pos h2] at hv
          obtain ⟨-, hv2⟩ := pyValList_append_eq_single (f k2) v0 v hv
          exact hv2 ▸ hv0
        · simp only [f2, if_neg h2] at hv
          exact hsingle k2 v hv
      have step := foldInto_lookup rest (dictInsertChild acc k0 v0) f2 hacc2 hsingle2 hrest k
      rw [foldInto, step]
      by_cases hk : k0 = k
      · simp [f2, hk, valuesFor, pyValList_append_assoc, PyValList.append]
      · simp [f2, hk, valuesFor]

theorem valuesNotList_append : ∀ d d2 : PyValPairs,
    valuesNotList (d.append d2) = (valuesNotList d && valuesNotList d2)
  | .nil, d2 => by simp [PyValPairs.append, valuesNotList]
  | .cons k v rest, d2 => by
      simp [PyValPairs.append, valuesNotList, valuesNotList_append rest d2,
        Bool.and_assoc]

theorem decode_values_not_list (e : Element) :
    valuesNotList (xml_to_dict_recursive e) = true := by
  match e with
  | .mk tag attrib text cs =>
    cases hst : stripText text with
    | some t =>
        cases cs with
        | nil =>
            simp [xml_to_dict_recursive, hst, ElementList.isEmpty, valuesNotList,
              PyVal.isList]
        | cons c crest =>
            simp [xml_to_dict_recursive, hst, ElementList.isEmpty, valuesNotList,
              PyVal.isList]
    | none =>
        cases cs with
        | cons c crest =>
            simp [xml_to_dict_recursive, hst, ElementList.isEmpty, valuesNotList,
              PyVal.isList]
        | nil =>
            cases attrib with
            | nil =>
                simp [xml_to_dict_recursive, hst, ElementList.isEmpty,
                  List.isEmpty, attribDict, valuesNotList]
            | cons a arest =>
                simp [xml_to_dict_recursive, hst, ElementList.isEmpty,
                  List.isEmpty, valuesNotList, PyVal.isList]

theorem childPairs_values_not_list : ∀ cs : ElementList,
    valuesNotList (childPairs cs) = true
  | .nil => rfl
  | .cons e rest => by
      simp [childPairs, valuesNotList_append, decode_values_not_list e,
        childPairs_values_not_list rest]

theorem pyValPairs_append_nil : ∀ d : PyValPairs, d.append .nil = d
  | .nil => rfl
  | .cons k v rest => by
      simp [PyValPairs.append, pyValPairs_append_nil rest]

theorem keysOf_append : ∀ d d2 : PyValPairs,
    keysOf (d.append d2) = keysOf d ++ keysOf d2
  | .nil, d2 => rfl
  | .cons k v rest, d2 => by
      simp [PyValPairs.append, keysOf, keysOf_append rest d2]

theorem keysOf_replaceKey : ∀ (d : PyValPairs) (k : String) (v : PyVal),
    keysOf (d.replaceKey k v) = keysOf d
  | .nil, _, _ => rfl
  | .cons k' v' rest, k, v => by
      by_cases h : k' = k
      · simp [PyValPairs.replaceKey, keysOf, h]
      · simp [PyValPairs.replaceKey, keysOf, h, keysOf_replaceKey rest k v]

theorem lookup_none_iff_not_mem : ∀ (d : PyValPairs) (k : String),
    d.lookup k = none ↔ k ∉ keysOf d
  | .nil, k => by simp [PyValPairs.lookup, keysOf]
  | .cons k' v rest, k => by
      by_cases h : k' = k
      · simp [PyValPairs.lookup, keysOf, h]
      · simp only [PyValPairs.lookup, if_neg h, keysOf, List.mem_cons, not_or,
          lookup_none_iff_not_mem rest k]
        exact ⟨fun hn => ⟨fun hh => h hh.symm, hn⟩, fun hn => hn.2⟩

theorem distinctKeys_iff_nodup : ∀ xs : List String,
    distinctKeys xs = true ↔ xs.Nodup
  | [] => by simp [distinctKeys]
  | x :: rest => by
      simp [distinctKeys, distinctKeys_iff_nodup rest, List.nodup_cons,
        List.contains, and_comm]

theorem foldInto_distinctKeys : ∀ (pairs acc : PyValPairs),
    distinctKeys (keysOf acc) = true →
    distinctKeys (keysOf (foldInto acc pairs)) = true
  | .nil, _, h => h
  | .cons k0 v0 rest, acc, h => by
      rw [foldInto]
      refine foldInto_distinctKeys rest (dictInsertChild acc k0 v0) ?_
      unfold dictInsertChild
      cases hl : acc.lookup k0 with
      | none =>
          rw [keysOf_append]
          rw [distinctKeys_iff_nodup] at h ⊢
          refine List.Nodup.append h (List.nodup_singleton k0) ?_
          intro a ha hb
          simp only [keysOf, List.mem_cons, List.not_mem_nil, or_false] at hb
          exact (lookup_none_iff_not_mem acc k0).mp hl (hb ▸ ha)
      | some w => cases w <;> simp [keysOf_replaceKey, h]

theorem foldInto_fresh : ∀ (pairs acc : PyValPairs),
    distinctKeys (keysOf pairs) = true →
    (∀ k, k ∈ keysOf pairs → acc.lookup k = none) →
    foldInto acc pairs = acc.append pairs
  | .nil, acc, _, _ => (pyValPairs_append_nil acc).symm
  | .cons k0 v0 rest, acc, hd, hfresh => by
      rw [distinctKeys_iff_nodup, keysOf, List.nodup_cons] at hd
      obtain ⟨hk0, hdr⟩ := hd
      have hl : acc.lookup k0 = none := hfresh k0 (by simp [keysOf])
      rw [foldInto]
      have hins : dictInsertChild acc k0 v0 = acc.append (.cons k0 v0 .nil) := by
        unfold dictInsertChild
        rw [hl]
      rw [hins]
      have hfresh2 : ∀ k, k ∈ keysOf rest →
          (acc.append (.cons k0 v0 .nil)).lookup k = none := by
        intro k hk
        have hne : ¬ k0 = k := fun hh => hk0 (hh ▸ hk)
        have hacc : acc.lookup k = none := hfresh k (by simp [keysOf, hk])
        rw [pyValPairs_lookup_append, hacc]
        simp [PyValPairs.lookup, hne]
      rw [foldInto_fresh rest (acc.append (.cons k0 v0 .nil))
        ((distinctKeys_iff_nodup _).mpr hdr) hfresh2]
      rw [pyValPairs_append_assoc]
      rfl

theorem dictUpdate_fresh : ∀ (pairs acc : PyValPairs),
    distinctKeys (keysOf pairs) = true →
    (∀ k, k ∈ keysOf pairs → acc.lookup k = none) →
    dictUpdate acc pairs = acc.append pairs
  | .nil, acc, _, _ => (pyValPairs_append_nil acc).symm
  | .cons k0 v0 rest, acc, hd, hfresh => by
      rw [distinctKeys_iff_nodup, keysOf, List.nodup_cons] at hd
      obtain ⟨hk0, hdr⟩ := hd
      have hl : acc.lookup k0 = none := hfresh k0 (by simp [keysOf])
      rw [dictUpdate]
      have hset : dictSet acc k0 v0 = acc.append (.cons k0 v0 .nil) := by
        unfold dictSet PyValPairs.containsKey
        rw [hl]
        rfl
      rw [hset]
      have hfresh2 : ∀ k, k ∈ keysOf rest →
          (acc.append (.cons k0 v0 .nil)).lookup k = none := by
        intro k hk
        have hne : ¬ k0 = k := fun hh => hk0 (hh ▸ hk)
        have hacc : acc.lookup k = none := hfresh k (by simp [keysOf, hk])
        rw [pyValPairs_lookup_append, hacc]
        simp [PyValPairs.lookup, hne]
      rw [dictUpdate_fresh rest (acc.append (.cons k0 v0 .nil))
        ((distinctKeys_iff_nodup _).mpr hdr) hfresh2]
      rw [pyValPairs_append_assoc]
      rfl

theorem collapse_of_two_le : ∀ vs : PyValList, 2 ≤ vs.length →
    collapse vs = some (.list vs)
  | .nil, h => by simp [PyValList.length] at h
  | .cons v .nil, h => by simp [PyValList.length] at h
  | .cons v (.cons w rest), _ => rfl

theorem foldPairs_lookup_collapse (pairs : PyValPairs)
    (hvals : valuesNotList pairs = true) (k : String) :
    (foldPairs pairs).lookup k = collapse (valuesFor k pairs) := by
  have h := foldInto_lookup pairs .nil (fun _ => .nil)
    (fun _ => rfl) (fun _ v hv => PyValList.noConfusion hv) hvals k
  simpa [foldPairs, PyValList.append] using h

/-- C1: for every XML element, the decoder merges its children's decoded
single-entry mappings into one child mapping; whenever a tag occurs in the
merged stream exactly once its value is stored directly under that key, and
whenever it occurs two or more times the stored value is the Sequence of the
converted values in document order, the first occurrence included.  For an
element with children (and no attributes or text) that child mapping, wrapped
under the element's own tag, is the decoding result. -/
theorem xml_repeated_tag_folding (tag : String) (cs : ElementList) (k : String)
    (hcs : cs ≠ .nil) :
    xml_to_dict_recursive (.mk tag [] none cs)
        = .cons tag (.dict (foldPairs (childPairs cs))) .nil ∧
    (∀ v, valuesFor k (childPairs cs) = .cons v .nil →
      (foldPairs (childPairs cs)).lookup k = some v) ∧
    (2 ≤ (valuesFor k (childPairs cs)).length →
      (foldPairs (childPairs cs)).lookup k
        = some (.list (valuesFor k (childPairs cs)))) := by
  have hlook : ∀ k2, (foldPairs (childPairs cs)).lookup k2
      = collapse (valuesFor k2 (childPairs cs)) :=
    foldPairs_lookup_collapse (childPairs cs) (childPairs_values_not_list cs)
  refine ⟨?_, ?_, ?_⟩
  · cases cs with
    | nil => exact absurd rfl hcs
    | cons c rest =>
        have hdist : distinctKeys (keysOf (foldPairs (childPairs (.cons c rest)))) = true :=
          foldInto_distinctKeys _ .nil rfl
        have hupd : dictUpdate .nil (foldPairs (childPairs (.cons c rest)))
            = foldPairs (childPairs (.cons c rest)) :=
          dictUpdate_fresh _ .nil hdist (fun _ _ => rfl)
        simp [xml_to_dict_recursive, ElementList.isEmpty, attribDict, stripText,
          List.isEmpty, hupd]
  · intro v hv
    rw [hlook k, hv]
    rfl
  · intro h2
    rw [hlook k, collapse_of_two_le _ h2]

/-- Child list for the concrete folding instance: tags b, b, c, b with texts
1, 2, 4 under b and 3 under c. -/
def foldingExampleChildren : ElementList :=
  .cons (.mk "b" [] (some "1") .nil)
    (.cons (.mk "b" [] (some "2") .nil)
      (.cons (.mk "c" [] (some "3") .nil)
        (.cons (.mk "b" [] (some "4") .nil) .nil)))

/-- Witness for C1 at a concrete element: the tag `b` occurring three times
folds to the Sequence of its three values in document order, the tag `c`
occurring once keeps its value unwrapped, and the whole element decodes to
the folded mapping under its own tag. -/
theorem xml_repeated_tag_folding_witness :
    xml_to_dict_recursive (.mk "r" [] none foldingExampleChildren)
        = .cons "r" (.dict (foldPairs (childPairs foldingExampleChildren))) .nil ∧
    (foldPairs (childPairs foldingExampleChildren)).lookup "b"
        = some (.list (.cons (.str "1") (.cons (.str "2") (.cons (.str "4") .nil)))) ∧
    (foldPairs (childPairs foldingExampleChildren)).lookup "c"
        = some (.str "3") :=
  ⟨(xml_repeated_tag_folding "r" foldingExampleChildren "b"
      (fun h => ElementList.noConfusion h)).1,
    (xml_repeated_tag_folding "r" foldingExampleChildren "b"
      (fun h => ElementList.noConfusion h)).2.2 (by decide),
    (xml_repeated_tag_folding "r" foldingExampleChildren "c"
      (fun h => ElementList.noConfusion h)).2.1 (.str "3") rfl⟩

/-- C3 (counterexample): an element with no attributes, no children, and no
text decodes to the empty mapping, not to the single-entry mapping holding
its tag; its tag vanishes entirely. -/
theorem decode_contribution_counterexample :
    xml_to_dict_recursive (.mk "a" [] none .nil) = .nil ∧
    xml_to_dict_recursive (.mk "a" [] none .nil) ≠ .cons "a" (.dict .nil) .nil :=
  ⟨rfl, fun h => PyValPairs.noConfusion h⟩

/-- C3 (amended): the value the decoder returns for an element is the
single-entry mapping holding the element's tag whenever the element has
attributes, children, or non-whitespace text; an element with none of these
contributes the empty mapping, so its tag does not appear in the parent. -/
theorem decode_contribution_amended (tag : String)
    (attrib : List (String × String)) (text : Option String) (cs : ElementList) :
    ((attrib ≠ [] ∨ cs ≠ .nil ∨ stripText text ≠ none) →
      ∃ v, xml_to_dict_recursive (.mk tag attrib text cs) = .cons tag v .nil) ∧
    (attrib = [] → cs = .nil → stripText text = none →
      xml_to_dict_recursive (.mk tag attrib text cs) = .nil) := by
  constructor
  · intro h
    cases hst : stripText text with
    | some t =>
        cases cs with
        | nil =>
            exact ⟨.str t, by simp [xml_to_dict_recursive, hst, ElementList.isEmpty]⟩
        | cons c rest =>
            exact ⟨.dict (dictSet (dictUpdate (attribDict attrib)
                (foldPairs (childPairs (.cons c rest)))) "#text" (.str t)),
              by simp [xml_to_dict_recursive, hst, ElementList.isEmpty]⟩
    | none =>
        cases cs with
        | cons c rest =>
            exact ⟨.dict (dictUpdate (attribDict attrib)
                (foldPairs (childPairs (.cons c rest)))),
              by simp [xml_to_dict_recursive, hst, ElementList.isEmpty]⟩
        | nil =>
            cases attrib with
            | nil =>
                rcases h with h | h | h
                · exact absurd rfl h
                · exact absurd rfl h
                · exact absurd hst h
            | cons a arest =>
                exact ⟨.dict (attribDict (a :: arest)),
                  by simp [xml_to_dict_recursive, hst, ElementList.isEmpty,
                    List.isEmpty]⟩
  · intro ha hc ht
    subst ha
    subst hc
    simp [xml_to_dict_recursive, ht, ElementList.isEmpty, attribDict, List.isEmpty]

/-- Witness for C3 at concrete elements: an element carrying text contributes
a single entry under its tag, and the fully empty element contributes the
empty mapping. -/
theorem decode_contribution_witness :
    (∃ v, xml_to_dict_recursive (.mk "a" [] (some "x") .nil) = .cons "a" v .nil) ∧
    xml_to_dict_recursive (.mk "b" [] none .nil) = .nil :=
  ⟨(decode_contribution_amended "a" [] (some "x") .nil).1
      (Or.inr (Or.inr (by decide))),
    (decode_contribution_amended "b" [] none .nil).2 rfl rfl rfl⟩

/-- C8: an element with no attributes and no children whose text is non-empty
after stripping decodes to the leaf mapping tag to stripped text; and
whitespace-only text is treated as absent everywhere in decoding — an element
whose text strips to empty decodes exactly as the same element without text. -/
theorem leaf_text_decoding (tag t s : String) (attrib : List (String × String))
    (cs : ElementList) :
    (pyStrip t ≠ "" →
      xml_to_dict_recursive (.mk tag [] (some t) .nil)
        = .cons tag (.str (pyStrip t)) .nil) ∧
    (pyStrip s = "" →
      xml_to_dict_recursive (.mk tag attrib (some s) cs)
        = xml_to_dict_recursive (.mk tag attrib none cs)) := by
  constructor
  · intro h
    have hst : stripText (some t) = some (pyStrip t) := by
      simp [stripText, h]
    simp [xml_to_dict_recursive, hst, ElementList.isEmpty]
  · intro h
    have hst : stripText (some s) = stripText none := by
      simp [stripText, h]
    simp only [xml_to_dict_recursive, hst]

/-- Witness for C8 at concrete inputs: text with surrounding whitespace is
stripped to a leaf, and whitespace-only text decodes as absent text. -/
theorem leaf_text_decoding_witness :
    xml_to_dict_recursive (.mk "name" [] (some " John ") .nil)
        = .cons "name" (.str "John") .nil ∧
    xml_to_dict_recursive (.mk "t" [("id", "5")] (some "  \n ")
        (.cons (.mk "a" [] (some "1") .nil) .nil))
      = xml_to_dict_recursive (.mk "t" [("id", "5")] none
        (.cons (.mk "a" [] (some "1") .nil) .nil)) :=
  ⟨(leaf_text_decoding "name" " John " "" [] .nil).1 (by decide),
    (leaf_text_decoding "t" "" "  \n " [("id", "5")]
      (.cons (.mk "a" [] (some "1") .nil) .nil)).2 (by decide)⟩

/-- C9: an element with attributes, non-whitespace text, and no children
decodes to the leaf mapping tag to stripped text, and every attribute is
silently discarded — no at-prefixed key appears in the result. -/
theorem attributes_discarded_with_text (tag t : String)
    (attrib : List (String × String)) (h1 : attrib ≠ []) (h2 : pyStrip t ≠ "") :
    xml_to_dict_recursive (.mk tag attrib (some t) .nil)
        = .cons tag (.str (pyStrip t)) .nil := by
  have hst : stripText (some t) = some (pyStrip t) := by
    simp [stripText, h2]
  simp [xml_to_dict_recursive, hst, ElementList.isEmpty]

/-- Witness for C9 at a concrete element: the attribute id equal 5 disappears
from the decoded result. -/
theorem attributes_discarded_with_text_witness :
    xml_to_dict_recursive (.mk "t" [("id", "5")] (some " hi ") .nil)
        = .cons "t" (.str "hi") .nil :=
  attributes_discarded_with_text "t" " hi " [("id", "5")]
    (by simp) (by decide)

theorem keysOf_stringifyPairs : ∀ kvs : PyValPairs,
    keysOf (stringifyPairs kvs) = keysOf kvs
  | .nil => rfl
  | .cons k v rest => by
      simp [stringifyPairs, keysOf, keysOf_stringifyPairs rest]

mutual
/-- Round-trip of one encoded value: for a value in the round-trippable
fragment, encoding under a tag, serializing with pretty-printing, re-parsing
and decoding recovers the single-entry mapping holding the value with its
numeric leaves stringified. -/
theorem roundVal : ∀ (tag : String) (v : PyVal), niceVal v = true →
    xml_to_dict_recursive (prettyReparse (dict_to_xml_recursive tag v))
      = .cons tag (stringifyVal v) .nil
  | tag, .str s, h => by
      simp only [niceVal, Bool.and_eq_true, beq_iff_eq, bne_iff_ne, ne_eq] at h
      obtain ⟨h1, h2⟩ := h
      have hst : stripText (some s) = some s := by
        simp [stripText, h1, h2]
      simp [dict_to_xml_recursive, prettyReparse, xml_to_dict_recursive, hst,
        ElementList.isEmpty, stringifyVal]
  | tag, .int n, h => by
      simp only [niceVal, Bool.and_eq_true, beq_iff_eq, bne_iff_ne, ne_eq] at h
      obtain ⟨h1, h2⟩ := h
      have hst : stripText (some (toString n)) = some (toString n) := by
        simp [stripText, h1, h2]
      simp [dict_to_xml_recursive, prettyReparse, xml_to_dict_recursive, hst,
        ElementList.isEmpty, stringifyVal]
  | tag, .dict kvs, h => by
      simp only [niceVal, Bool.and_eq_true, Bool.not_eq_true'] at h
      obtain ⟨⟨hne, hdist⟩, hnice⟩ := h
      cases kvs with
      | nil => exact absurd hne (by simp [PyValPairs.isEmpty])
      | cons k0 v0 rest =>
          have hcp := roundPairs (.cons k0 v0 rest) hnice
          have hdistS : distinctKeys (keysOf (stringifyPairs (.cons k0 v0 rest))) = true := by
            rw [keysOf_stringifyPairs]
            exact hdist
          have hfold : foldPairs (stringifyPairs (.cons k0 v0 rest))
              = stringifyPairs (.cons k0 v0 rest) :=
            foldInto_fresh (stringifyPairs (.cons k0 v0 rest)) .nil hdistS
              (fun _ _ => rfl)
          have hupd : dictUpdate .nil (stringifyPairs (.cons k0 v0 rest))
              = stringifyPairs (.cons k0 v0 rest) :=
            dictUpdate_fresh (stringifyPairs (.cons k0 v0 rest)) .nil hdistS
              (fun _ _ => rfl)
          have hdecode : xml_to_dict_recursive (prettyReparse
                (dict_to_xml_recursive tag (.dict (.cons k0 v0 rest))))
              = .cons tag (.dict (dictUpdate .nil (foldPairs (childPairs
                  (prettyReparseList (pairsToElements (.cons k0 v0 rest))))))) .nil := rfl
          rw [hdecode, hcp, hfold, hupd]
          rfl
  | tag, .list l, h => by simp [niceVal] at h

/-- Round-trip of the encoded children of a mapping, entry by entry. -/
theorem roundPairs : ∀ kvs : PyValPairs, nicePairs kvs = true →
    childPairs (prettyReparseList (pairsToElements kvs)) = stringifyPairs kvs
  | .nil, _ => rfl
  | .cons k v rest, h => by
      simp only [nicePairs, Bool.and_eq_true] at h
      obtain ⟨hv, hrest⟩ := h
      show (xml_to_dict_recursive (prettyReparse (dict_to_xml_recursive k v))).append
          (childPairs (prettyReparseList (pairsToElements rest)))
        = stringifyPairs (.cons k v rest)
      rw [roundVal k v hv, roundPairs rest hrest]
      rfl
end

mutual
/-- Name-validity of the encoded tree: when every key of the value is a
valid XML element name and the root tag is valid, the tree built by the
encoder (whose elements carry no attributes) has only valid names, so the
external serialize-and-reparse leg succeeds on it. -/
theorem encodeNamesValid : ∀ (tag : String) (v : PyVal),
    validXmlName tag = true → keysXmlValid v = true →
    elementNamesValid (dict_to_xml_recursive tag v) = true
  | tag, .str s, ht, _ => by
      simp [dict_to_xml_recursive, elementNamesValid, elementListNamesValid, ht]
  | tag, .int n, ht, _ => by
      simp [dict_to_xml_recursive, elementNamesValid, elementListNamesValid, ht]
  | tag, .dict kvs, ht, hk => by
      simp [dict_to_xml_recursive, elementNamesValid, ht,
        encodePairsNamesValid kvs hk]
  | tag, .list l, ht, hk => by
      simp [dict_to_xml_recursive, elementNamesValid, ht,
        encodeListNamesValid l hk]

/-- Name-validity of the children encoded for a mapping. -/
theorem encodePairsNamesValid : ∀ kvs : PyValPairs,
    keysXmlValidPairs kvs = true →
    elementListNamesValid (pairsToElements kvs) = true
  | .nil, _ => rfl
  | .cons k v rest, h => by
      simp only [keysXmlValidPairs, Bool.and_eq_true] at h
      simp [pairsToElements, elementListNamesValid,
        encodeNamesValid k v h.1.1 h.1.2, encodePairsNamesValid rest h.2]

/-- Name-validity of the children encoded for a list (tagged `item`). -/
theorem encodeListNamesValid : ∀ l : PyValList,
    keysXmlValidList l = true →
    elementListNamesValid (listToElements l) = true
  | .nil, _ => rfl
  | .cons v rest, h => by
      simp only [keysXmlValidList, Bool.and_eq_true] at h
      simp [listToElements, elementListNamesValid,
        encodeNamesValid "item" v (by decide) h.1,
        encodeListNamesValid rest h.2]
end

/-- Error path of the external XML leg at an invalid key: a key containing a
space is not a valid element name, so serializing the encoded tree raises
before any XML text exists (spec §4.1: malformed input keys must raise). -/
theorem serializeReparse_invalid_key_raises :
    serializeReparse (dict_to_xml_tree (.dict (.cons "a b" (.str "x") .nil)) "root")
      = .error (.xmlParse "not well-formed (invalid token)") := rfl

/-- C2 (amended): for a mapping whose keys are valid XML element names and
whose values are nested non-empty mappings with pairwise distinct keys and
scalar leaves whose rendering survives stripping (strings and numbers),
serializing the encoded tree succeeds and decoding the pretty-printed XML
text yields the mapping again, under the root tag and with numeric leaves
rendered as strings.  Beyond the two documented lossy cases, the root
wrapper itself and list-valued keys (re-decoded under an inner `item` key)
are further departures, which this statement excludes; at an invalid key
the serializer raises instead (see `serializeReparse`). -/
theorem xml_roundtrip_amended (kvs : PyValPairs)
    (h : niceVal (.dict kvs) = true) (hk : keysXmlValidPairs kvs = true) :
    (serializeReparse (dict_to_xml_tree (.dict kvs) "root")).map
        xml_to_dict_recursive
      = .ok (.cons "root" (.dict (stringifyPairs kvs)) .nil) := by
  have hv : elementNamesValid (dict_to_xml_tree (.dict kvs) "root") = true :=
    encodeNamesValid "root" (.dict kvs) (by decide) hk
  have hs : serializeReparse (dict_to_xml_tree (.dict kvs) "root")
      = .ok (prettyReparse (dict_to_xml_tree (.dict kvs) "root")) := by
    unfold serializeReparse
    rw [hv]
    rfl
  rw [hs]
  exact congrArg Except.ok (roundVal "root" (.dict kvs) h)

/-- C2 (counterexample): for the mapping holding just the key a (a valid XML
element name) with string value x — no numbers, no lists, so neither
documented lossy case applies — serialization succeeds and decode after
encode returns the mapping wrapped under the root tag, not the mapping
itself. -/
theorem xml_roundtrip_counterexample :
    (serializeReparse (dict_to_xml_tree
        (.dict (.cons "a" (.str "x") .nil)) "root")).map xml_to_dict_recursive
      = .ok (.cons "root" (.dict (.cons "a" (.str "x") .nil)) .nil) ∧
    (serializeReparse (dict_to_xml_tree
        (.dict (.cons "a" (.str "x") .nil)) "root")).map xml_to_dict_recursive
      ≠ .ok (.cons "a" (.str "x") .nil) :=
  ⟨rfl, fun h => absurd (congrArg okFirstKey h) (by decide)⟩

/-- Witness for C2 at a concrete mapping with a string leaf and a numeric
leaf under valid element names: the round trip returns it under the root
key with the number stringified. -/
theorem xml_roundtrip_amended_witness :
    (serializeReparse (dict_to_xml_tree
        (.dict (.cons "name" (.str "John") (.cons "age" (.int 30) .nil)))
        "root")).map xml_to_dict_recursive
      = .ok (.cons "root" (.dict (.cons "name" (.str "John")
          (.cons "age" (.str "30") .nil))) .nil) :=
  xml_roundtrip_amended
    (.cons "name" (.str "John") (.cons "age" (.int 30) .nil))
    (by decide) (by decide)

/-- C6: same-format conversion is never offered — a json-source converter's
`to_json`, an xml-source converter's `to_xml`, and a yaml-source converter's
`to_yaml` all fall through their dispatch chains to the unsupported-type
error, for every payload and every choice of external codecs. -/
theorem same_format_rejected (c : Codecs) (p : Payload) :
    (DataConverter.to_json c ⟨p, "json"⟩).1
        = .error (.dataConverterError "Unsupported data type for JSON conversion") ∧
    (DataConverter.to_xml c ⟨p, "xml"⟩).1
        = .error (.dataConverterError "Unsupported data type for XML conversion") ∧
    (DataConverter.to_yaml c ⟨p, "yaml"⟩).1
        = .error (.dataConverterError "Unsupported data type for YAML conversion") :=
  ⟨rfl, rfl, rfl⟩

/-- C7: construction succeeds for every payload when the tag is one of json,
xml, dict, yaml, and fails immediately with the classification error
`Unsupported data type` for every tag outside that set, regardless of the
payload and before any method is involved. -/
theorem constructor_tag_validation (p : Payload) (t : String) :
    ((t = "json" ∨ t = "xml" ∨ t = "dict" ∨ t = "yaml") →
      DataConverter.init p t = .ok ⟨p, t⟩) ∧
    (t ≠ "json" → t ≠ "xml" → t ≠ "dict" → t ≠ "yaml" →
      DataConverter.init p t = .error (.dataConverterError "Unsupported data type")) := by
  constructor
  · intro h
    rcases h with h | h | h | h <;> subst h <;> rfl
  · intro h1 h2 h3 h4
    unfold DataConverter.init
    have hc : (["json", "xml", "dict", "yaml"].contains t) = false := by
      simp [List.contains, List.elem_cons, h1, h2, h3, h4]
    rw [hc]
    rfl

/-- Witness for C7 at concrete tags: the tag dict is accepted, the tag
unsupported is rejected with the classification error. -/
theorem constructor_tag_validation_witness :
    DataConverter.init (.str "some data") "dict" = .ok ⟨.str "some data", "dict"⟩ ∧
    DataConverter.init (.str "some data") "unsupported"
        = .error (.dataConverterError "Unsupported data type") :=
  ⟨(constructor_tag_validation (.str "some data") "dict").1
      (Or.inr (Or.inr (Or.inl rfl))),
    (constructor_tag_validation (.str "some data") "unsupported").2
      (by decide) (by decide) (by decide) (by decide)⟩

/-- C10: every facade method leaves the converter state — the bound payload
and the declared tag — unchanged whether it returns text or an error, and a
repeated call on the resulting state returns the same outcome. -/
theorem facade_state_unchanged (c : Codecs) (st : DCState) :
    (DataConverter.to_json c st).2 = st ∧
    (DataConverter.to_xml c st).2 = st ∧
    (DataConverter.to_yaml c st).2 = st ∧
    DataConverter.to_json c (DataConverter.to_json c st).2
        = DataConverter.to_json c st ∧
    DataConverter.to_xml c (DataConverter.to_xml c st).2
        = DataConverter.to_xml c st ∧
    DataConverter.to_yaml c (DataConverter.to_yaml c st).2
        = DataConverter.to_yaml c st :=
  ⟨rfl, rfl, rfl, rfl, rfl, rfl⟩

/-- C4 (counterexample): a converter bound to the text payload `hello` under
the dict tag does not raise on `to_json`; the payload is serialized as JSON
without any shape check. -/
theorem dispatch_typecheck_counterexample :
    (DataConverter.to_json pyCodecs ⟨.str "hello", "dict"⟩).1 = .ok "\"hello\"" :=
  rfl

/-- C4 (amended): of the nine offered (source tag, target) combinations,
every one except (dict, to_json) type-checks the bound payload against the
expected native shape and raises the matching classification error on a
mismatch; the (dict, to_json) cell alone performs no check and serializes
whatever payload is bound — for every choice of external codecs. -/
theorem dispatch_typecheck_amended (c : Codecs) (s : String) (d : PyValPairs) :
    (DataConverter.to_json c ⟨.dict d, "xml"⟩).1
        = .error (.dataConverterError "Invalid data type for XML conversion") ∧
    (DataConverter.to_json c ⟨.dict d, "yaml"⟩).1
        = .error (.dataConverterError "Invalid data type for YAML conversion") ∧
    (DataConverter.to_json c ⟨.str s, "dict"⟩).1 = .ok (c.jsonDumps (.str s)) ∧
    (DataConverter.to_json c ⟨.dict d, "dict"⟩).1 = .ok (c.jsonDumps (.dict d)) ∧
    (DataConverter.to_xml c ⟨.dict d, "json"⟩).1
        = .error (.dataConverterError "Invalid data type for JSON conversion") ∧
    (DataConverter.to_xml c ⟨.str s, "dict"⟩).1
        = .error (.dataConverterError "Invalid data type for dict conversion") ∧
    (DataConverter.to_xml c ⟨.dict d, "yaml"⟩).1
        = .error (.dataConverterError "Invalid data type for YAML conversion") ∧
    (DataConverter.to_yaml c ⟨.dict d, "json"⟩).1
        = .error (.dataConverterError "Invalid data type for JSON conversion") ∧
    (DataConverter.to_yaml c ⟨.str s, "dict"⟩).1
        = .error (.dataConverterError "Invalid data type for dict conversion") ∧
    (DataConverter.to_yaml c ⟨.dict d, "xml"⟩).1
        = .error (.dataConverterError "Invalid data type for XML conversion") :=
  ⟨rfl, rfl, rfl, rfl, rfl, rfl, rfl, rfl, rfl, rfl⟩

